import Mathlib

/-!
Verification of the Panel-State Reconciliation Engine of the
amazondvc_admin repository (backend/services/proevent_service.py and
backend/services/proserver_service.py), shallowly embedded in Lean 4.

Modelling conventions:
* ProEvent reactive states are the integers stored in
  ProEvent_TBL.pevReactive_FRK: 0 = Reactive, 1 = NonReactive.
* The external relational store, the local sqlite stores
  (sqlite_config) and the process cache (cache_service) are not part of
  src/; they are plain key-value stores (spec, sections 2 and 6) and are
  modelled as explicit state passed into the functions: association
  lists for caches, an Option field for the at-most-one snapshot per
  building, and a fetch oracle returning Except for the fallible store
  read.
* Wall-clock times are seconds of day (Nat); HH:MM strings parsed with
  strptime become multiples of 60, and None / empty / unparsable time
  strings are modelled as none.
* Bulk DB writes are side effects; each embedded function returns,
  next to its state, the list of bulk-write calls it issued (each call
  a list of (id, state) rows).
-/

namespace AmazonDVC

/-- A ProEvent row as the engine sees it: the fields "id"
(ProEvent_PRK) and "state" (pevReactive_FRK).  The same shape is used
for snapshot entries and for the rows of a bulk write, exactly as the
Python code reuses the dict shape. -/
structure PE where
  id : Nat
  state : Nat
deriving DecidableEq, Repr

/-- A row of the local ignored_proevents table (database_setup.py):
building association and the two per-direction override flags. -/
structure IgnoreEntry where
  building_frk : Nat
  ignore_on_arm : Bool
  ignore_on_disarm : Bool
deriving DecidableEq, Repr

/-! ## Substring containment (Python's `in` on str)

`get_all_live_building_arm_states` tests
`"AreaArmingStates.2" in state_str` after `.strip()`.  We model Python
strings as lists of characters. -/

/-- Python-style startswith on character lists. -/
def leadsWith : List Char → List Char → Bool
  | [], _ => true
  | _ :: _, [] => false
  | n :: ns, h :: hs => (n == h) && leadsWith ns hs

/-- Python's substring test `needle in hay` on character lists. -/
def containsSub (needle : List Char) : List Char → Bool
  | [] => leadsWith needle []
  | h :: hs => leadsWith needle (h :: hs) || containsSub needle hs

/-- Python's str.strip(): drop leading and trailing whitespace. -/
def pyStrip (l : List Char) : List Char :=
  ((l.dropWhile Char.isWhitespace).reverse.dropWhile Char.isWhitespace).reverse

/-- The literal disarmed-state marker used by the classifier. -/
def disarmMarker : List Char := "AreaArmingStates.2".data

/-- The classification rule of get_all_live_building_arm_states
(proserver_service.py, lines 243-251) for one row's text state:
strip the text (None becomes the empty string), classify as disarmed
(false) exactly when the stripped text contains the marker, otherwise
armed (true). -/
def classify_arm_state (state_txt : Option String) : Bool :=
  let state_str := pyStrip (state_txt.getD "").data
  !(containsSub disarmMarker state_str)

/-- The row loop of get_all_live_building_arm_states: rows with a falsy
building id (None or 0) are skipped, later rows overwrite earlier ones
(Python dict assignment). -/
def get_all_live_building_arm_states
    (rows : List (Option Nat × Option String)) : List (Nat × Bool) :=
  rows.foldl
    (fun acc row =>
      match row.1 with
      | none => acc
      | some bid =>
        if bid = 0 then acc
        else acc.filter (fun e => e.1 ≠ bid) ++ [(bid, classify_arm_state row.2)])
    []

/-! ## The process cache (cache_service key "panel_state_cache")

Modelled from the spec: cache_service is not under src/; per spec
sections 2 and 6 it is a plain process-wide key-value store, so the
map stored under "panel_state_cache" is an association list from
building id to the last observed armed boolean. -/

/-- Lookup in the cached panel-state map (Python dict .get). -/
def alLookup (m : List (Nat × Bool)) (k : Nat) : Option Bool :=
  (m.find? (fun e => e.1 == k)).map (fun e => e.2)

/-- Assignment in the cached panel-state map (Python dict item set:
overwrite an existing key, otherwise add the key). -/
def alInsert : List (Nat × Bool) → Nat → Bool → List (Nat × Bool)
  | [], k, v => [(k, v)]
  | e :: es, k, v => if e.1 = k then (k, v) :: es else e :: alInsert es k v

/-! ## Ignore registry (sqlite_config.get_ignored_proevents)

Modelled from the spec: sqlite_config is not under src/; per spec
section 6 get_ignored_proevents returns the persisted map
trigger_id -> IgnoreEntry, modelled as an association list (a Python
dict, so keys are distinct). -/

/-- The set comprehension of proevent_service.py lines 134-137: ids of
ignore entries of this building whose ignore_on_disarm flag is set.
(Note: the code filters on ignore_on_disarm for both transition
directions; ignore_on_arm is never consulted.) -/
def ignored_ids (imap : List (Nat × IgnoreEntry)) (bid : Nat) : List Nat :=
  (imap.filter (fun e => e.2.building_frk == bid && e.2.ignore_on_disarm)).map
    (fun e => e.1)

/-! ## Transition Handler (manage_proevents_on_panel_state_change) -/

/-- The body of the per-building loop of
manage_proevents_on_panel_state_change (proevent_service.py lines
109-165) for one building.  Inputs: the result of the fallible store
read get_proevents_for_building_from_db (which re-raises on failure,
proserver_service.py line 162), the ignore registry, the building id,
the live armed state and the cached previous state.  Output: on
success, the value this iteration leaves in new_cached_states for this
building together with the bulk-write calls it issued; on error, the
exception propagates. -/
def reconcile_building (fetchRes : Except Unit (List PE))
    (imap : List (Nat × IgnoreEntry)) (bid : Nat) (is_armed : Bool)
    (prev : Option Bool) : Except Unit (Bool × List (List PE)) :=
  match prev with
  | none => .ok (is_armed, [])
  | some prev_state =>
    if prev_state = is_armed then .ok (prev_state, [])
    else
      match fetchRes with
      | .error e => .error e
      | .ok all_proevents =>
        if all_proevents = [] then .ok (is_armed, [])
        else
          let ign := ignored_ids imap bid
          if is_armed then
            if ign = [] then .ok (is_armed, [])
            else .ok (is_armed, [ign.map (fun pid => PE.mk pid 0)])
          else
            if ign = [] then .ok (is_armed, [])
            else .ok (is_armed, [ign.map (fun pid => PE.mk pid 1)])

/-- The per-building loop of manage_proevents_on_panel_state_change:
walks the live states in order, threading new_cached_states and
collecting issued bulk writes.  An exception from a store read aborts
the loop (first component none); writes issued before the failure are
kept, since they already hit the store. -/
def manageLoop (fetch : Nat → Except Unit (List PE))
    (imap : List (Nat × IgnoreEntry)) :
    List (Nat × Bool) → List (Nat × Bool) → List (Nat × Bool) →
    Option (List (Nat × Bool)) × List (List PE)
  | [], _, nc => (some nc, [])
  | (bid, is_armed) :: rest, cached, nc =>
    match reconcile_building (fetch bid) imap bid is_armed (alLookup cached bid) with
    | .error _ => (none, [])
    | .ok (entry, ws) =>
      let r := manageLoop fetch imap rest cached (alInsert nc bid entry)
      (r.1, ws ++ r.2)

/-- manage_proevents_on_panel_state_change (proevent_service.py lines
96-171): one tick of the Transition Handler over all live buildings.
The whole loop body sits in one try/except, and the cache write
(cache_service.set_cache_value, line 168) happens only after the loop
completes, so an exception leaves the stored cache untouched.  Returns
the stored cache after the tick and every bulk write issued. -/
def manage_proevents_on_panel_state_change (fetch : Nat → Except Unit (List PE))
    (imap : List (Nat × IgnoreEntry)) (live : List (Nat × Bool))
    (cached : List (Nat × Bool)) : List (Nat × Bool) × List (List PE) :=
  match manageLoop fetch imap live cached cached with
  | (some nc, ws) => (nc, ws)
  | (none, ws) => (cached, ws)

/-- N consecutive ticks of the Transition Handler with a fixed
observation (live states, store contents and ignore registry held
constant), accumulating the bulk writes of all ticks. -/
def runTicks (fetch : Nat → Except Unit (List PE))
    (imap : List (Nat × IgnoreEntry)) (live : List (Nat × Bool)) :
    List (Nat × Bool) → Nat → List (Nat × Bool) × List (List PE)
  | cached, 0 => (cached, [])
  | cached, n + 1 =>
    let r := manage_proevents_on_panel_state_change fetch imap live cached
    let r2 := runTicks fetch imap live r.1 n
    (r2.1, r.2 ++ r2.2)

/-! ## Window Reconciler (snapshot / apply / revert) -/

/-- is_time_between (proevent_service.py lines 72-94).  Times are
seconds of day; start and end come from HH:MM strings (multiples of
60) with none standing for a null, empty or unparsable string, for
which the function returns False; now is datetime.now(tz).time() at
second granularity. -/
def is_time_between (start_time : Option Nat) (end_time : Option Nat)
    (now : Nat) : Bool :=
  match start_time, end_time with
  | some s, some e =>
    if s ≤ e then s ≤ now && now ≤ e
    else s ≤ now || now ≤ e
  | _, _ => false

/-- The per-building state the Window Reconciler touches: the
building's ProEvent rows in the external store and the local snapshot
(sqlite_config get_snapshot / save_snapshot / clear_snapshot, modelled
from the spec as an at-most-one Option per building, spec sections 3
and 6). -/
structure WinState where
  db : List PE
  snap : Option (List PE)
deriving DecidableEq, Repr

/-- The effect of the bulk UPDATE of set_proevent_reactive_state_bulk
on the building's rows: each (id, state) pair sets the state of every
row with that id, in order. -/
def applyBulk (db : List PE) (targets : List PE) : List PE :=
  targets.foldl
    (fun acc t => acc.map (fun r => if r.id = t.id then PE.mk r.id t.state else r))
    db

/-- set_proevent_reactive_state_bulk (proserver_service.py lines
165-207): empty input returns True without touching the store; the
DB transaction either commits (ok = true, returns True) or fails
(ok = false, store untouched, returns False).  ok is the environment's
success oracle for the transaction. -/
def set_proevent_reactive_state_bulk (ok : Bool) (db : List PE)
    (target_states : List PE) : List PE × Bool :=
  if target_states = [] then (db, true)
  else if ok then (applyBulk db target_states, true)
  else (db, false)

/-- take_snapshot_and_apply_schedule (proevent_service.py lines
334-381): read all rows (empty means return without saving a
snapshot); save the snapshot; set ignored-on-disarm ids to 1 and all
others to 0 in one bulk write.  Returns the new state and the issued
bulk-write calls. -/
def take_snapshot_and_apply_schedule (ok : Bool)
    (imap : List (Nat × IgnoreEntry)) (bid : Nat) (st : WinState) :
    WinState × List (List PE) :=
  let all_devices := st.db
  if all_devices = [] then (st, [])
  else
    let snapshot_data := all_devices.map (fun dev => PE.mk dev.id dev.state)
    let ign := ignored_ids imap bid
    let target_states := snapshot_data.map
      (fun device => if device.id ∈ ign then PE.mk device.id 1 else PE.mk device.id 0)
    let wr := set_proevent_reactive_state_bulk ok st.db target_states
    (⟨wr.1, some snapshot_data⟩, [target_states])

/-- revert_snapshot (proevent_service.py lines 383-399): push the
snapshot rows back in one bulk write, then clear the snapshot.  The
boolean result of the bulk write is ignored, so the snapshot is
cleared whether or not the write committed. -/
def revert_snapshot (ok : Bool) (snapshot_data : List PE) (st : WinState) :
    WinState × List (List PE) :=
  let wr := set_proevent_reactive_state_bulk ok st.db snapshot_data
  (⟨wr.1, none⟩, [snapshot_data])

/-- _evaluate_building_state (proevent_service.py lines 297-330): the
four-case dispatch on (inside schedule?, snapshot exists?).  schedule
is get_building_time's row (none when the building has no schedule). -/
def evaluate_building_state (ok : Bool) (imap : List (Nat × IgnoreEntry))
    (bid : Nat) (schedule : Option (Option Nat × Option Nat)) (now : Nat)
    (st : WinState) : WinState × List (List PE) :=
  match schedule with
  | none => (st, [])
  | some sched =>
    let is_inside_schedule := is_time_between sched.1 sched.2 now
    match st.snap with
    | none =>
      if is_inside_schedule then take_snapshot_and_apply_schedule ok imap bid st
      else (st, [])
    | some snapshot =>
      if is_inside_schedule then (st, [])
      else revert_snapshot ok snapshot st

/-- reevaluate_building_state (proevent_service.py lines 211-226): the
manual entry point.  panel_armed is the truthiness of the process
cache value under key "panel_armed"; when truthy the function returns
at once, otherwise it runs _evaluate_building_state. -/
def reevaluate_building_state (panel_armed : Bool) (ok : Bool)
    (imap : List (Nat × IgnoreEntry)) (bid : Nat)
    (schedule : Option (Option Nat × Option Nat)) (now : Nat)
    (st : WinState) : WinState × List (List PE) :=
  if panel_armed then (st, [])
  else evaluate_building_state ok imap bid schedule now st

/-! ## Helper lemmas -/

/-- Mapping a ProEvent row to a dict of its own id and state is the
identity (structure eta). -/
theorem pe_map_eta (l : List PE) : l.map (fun d => PE.mk d.id d.state) = l := by
  induction l with
  | nil => rfl
  | cons h t ih => cases h; simp [ih]

/-- Writing back the value a key already holds leaves the cache map
unchanged. -/
theorem alInsert_lookup_self (m : List (Nat × Bool)) (k : Nat) (v : Bool)
    (h : alLookup m k = some v) : alInsert m k v = m := by
  induction m with
  | nil => simp [alLookup, List.find?] at h
  | cons e es ih =>
    obtain ⟨k1, v1⟩ := e
    by_cases hk : k1 = k
    · simp [alLookup, List.find?, hk] at h
      simp [alInsert, hk, h]
    · have hk' : (k1 == k) = false := by simp [hk]
      simp [alLookup, List.find?, hk'] at h
      simp [alInsert, hk, ih (by simp [alLookup, h])]

/-! ## Claim theorems -/

/-- Claim C5 (confirmed): on the first observation of a building's
panel state (no cache entry), the Transition Handler stores the
observed value in the cache and issues no bulk trigger write,
regardless of the observed value. -/
theorem bootstrap_stores_without_write (fetch : Nat → Except Unit (List PE))
    (imap : List (Nat × IgnoreEntry)) (b : Nat) (v : Bool)
    (cached : List (Nat × Bool)) (h : alLookup cached b = none) :
    manage_proevents_on_panel_state_change fetch imap [(b, v)] cached
      = (alInsert cached b v, []) := by
  simp [manage_proevents_on_panel_state_change, manageLoop, reconcile_building, h]

/-- Witness for C5 at a concrete input. -/
theorem bootstrap_stores_without_write_witness :
    alLookup [(2, true)] 1 = none ∧
    manage_proevents_on_panel_state_change (fun _ => .ok []) [] [(1, false)] [(2, true)]
      = (alInsert [(2, true)] 1 false, []) :=
  ⟨by decide,
   bootstrap_stores_without_write (fun _ => .ok []) [] 1 false [(2, true)] (by decide)⟩

/-- Claim C6 (confirmed): if the observed armed value equals the
cached previous value, any number N of consecutive ticks is a no-op:
the cache is unchanged and exactly zero bulk writes are issued. -/
theorem unchanged_state_ticks_no_writes (fetch : Nat → Except Unit (List PE))
    (imap : List (Nat × IgnoreEntry)) (b : Nat) (v : Bool)
    (cached : List (Nat × Bool)) (n : Nat) (h : alLookup cached b = some v) :
    runTicks fetch imap [(b, v)] cached n = (cached, []) := by
  have hone : manage_proevents_on_panel_state_change fetch imap [(b, v)] cached
      = (cached, []) := by
    simp [manage_proevents_on_panel_state_change, manageLoop, reconcile_building, h,
      alInsert_lookup_self cached b v h]
  induction n with
  | zero => rfl
  | succ k ih => simp [runTicks, hone, ih]

/-- Witness for C6 at a concrete input. -/
theorem unchanged_state_ticks_no_writes_witness :
    alLookup [(1, true)] 1 = some true ∧
    runTicks (fun _ => .ok [⟨7, 0⟩]) [] [(1, true)] [(1, true)] 5 = ([(1, true)], []) :=
  ⟨by decide,
   unchanged_state_ticks_no_writes (fun _ => .ok [⟨7, 0⟩]) [] 1 true [(1, true)] 5 (by decide)⟩

/-- Claim C9 (confirmed): revert_snapshot clears the stored snapshot
unconditionally after attempting the bulk write-back, even when the
bulk write reports failure (returns false); the store rows are then
left unrestored, so a failed restore still ends the window-active
state. -/
theorem revert_clears_snapshot_on_failed_write (snap : List PE) (st : WinState)
    (h : snap ≠ []) :
    (set_proevent_reactive_state_bulk false st.db snap).2 = false ∧
    revert_snapshot false snap st = (⟨st.db, none⟩, [snap]) := by
  constructor
  · simp [set_proevent_reactive_state_bulk, h]
  · simp [revert_snapshot, set_proevent_reactive_state_bulk, h]

/-- Witness for C9 at a concrete input. -/
theorem revert_clears_snapshot_on_failed_write_witness :
    ([⟨1, 0⟩] : List PE) ≠ [] ∧
    ((set_proevent_reactive_state_bulk false (WinState.mk [⟨1, 1⟩] (some [⟨1, 0⟩])).db
        [⟨1, 0⟩]).2 = false ∧
     revert_snapshot false [⟨1, 0⟩] (WinState.mk [⟨1, 1⟩] (some [⟨1, 0⟩]))
       = (⟨[⟨1, 1⟩], none⟩, [[⟨1, 0⟩]])) :=
  ⟨by decide,
   revert_clears_snapshot_on_failed_write [⟨1, 0⟩] (WinState.mk [⟨1, 1⟩] (some [⟨1, 0⟩]))
     (by decide)⟩

/-- Claim C10 (confirmed): the manual per-building re-evaluation entry
point is a frame no-op (no snapshot capture, no revert, no trigger
writes, state returned unchanged) whenever the process-wide cache
value panel_armed is truthy; when that flag is absent or falsy it runs
exactly the window state machine evaluation. -/
theorem reevaluate_skips_when_panel_armed (ok : Bool)
    (imap : List (Nat × IgnoreEntry)) (bid : Nat)
    (schedule : Option (Option Nat × Option Nat)) (now : Nat) (st : WinState) :
    reevaluate_building_state true ok imap bid schedule now st = (st, []) ∧
    reevaluate_building_state false ok imap bid schedule now st
      = evaluate_building_state ok imap bid schedule now st := by
  constructor <;> simp [reevaluate_building_state]

/-- Claim C1 counterexample: arm transition (false to true) over
triggers 1..6 with ignore entries carrying ignore_on_arm = true
exactly on 5 and 6 (and ignore_on_disarm = false everywhere).  The
claim demands the bulk target set 1..4 to Reactive and 5, 6
NonReactive, so in particular the pair (1, Reactive) must be issued;
the code filters on ignore_on_disarm only and issues no bulk write at
all here. -/
theorem arm_transition_claim_false :
    reconcile_building
        (.ok [⟨1, 1⟩, ⟨2, 1⟩, ⟨3, 1⟩, ⟨4, 1⟩, ⟨5, 1⟩, ⟨6, 1⟩])
        [(5, ⟨1, true, false⟩), (6, ⟨1, true, false⟩)] 1 true (some false)
      = .ok (true, []) ∧
    ¬ (∃ ws, reconcile_building
          (.ok [⟨1, 1⟩, ⟨2, 1⟩, ⟨3, 1⟩, ⟨4, 1⟩, ⟨5, 1⟩, ⟨6, 1⟩])
          [(5, ⟨1, true, false⟩), (6, ⟨1, true, false⟩)] 1 true (some false)
        = .ok (true, ws) ∧ PE.mk 1 0 ∈ ws.flatten) := by
  refine ⟨by rfl, ?_⟩
  rintro ⟨ws, hws, hmem⟩
  have : ws = ([] : List (List PE)) := by
    have h0 : Except.ok (ε := Unit) (true, ws)
        = .ok (true, ([] : List (List PE))) := by rw [← hws]; rfl
    simpa using h0
  subst this
  simp at hmem

/-- Claim C1 (corrected): on an arm transition the Transition Handler
consults only ignore_on_disarm (never ignore_on_arm) and issues one
bulk write setting exactly the triggers whose ignore entry for this
building has ignore_on_disarm = true to Reactive (state 0); all other
triggers are left untouched, and when no such entry exists no bulk
write is issued at all. -/
theorem arm_transition_writes_ignored_only (pes : List PE)
    (imap : List (Nat × IgnoreEntry)) (bid : Nat) (h : pes ≠ []) :
    ∃ ws, reconcile_building (.ok pes) imap bid true (some false) = .ok (true, ws) ∧
      (ws = [] ↔ ignored_ids imap bid = []) ∧
      ∀ t : PE, t ∈ ws.flatten ↔ (t.id ∈ ignored_ids imap bid ∧ t.state = 0) := by
  by_cases hign : ignored_ids imap bid = []
  · refine ⟨[], ?_, by simp [hign], by simp [hign]⟩
    simp [reconcile_building, h, hign]
  · refine ⟨[(ignored_ids imap bid).map (fun pid => PE.mk pid 0)], ?_, ?_, ?_⟩
    · simp [reconcile_building, h, hign]
    · simp [hign]
    · intro t
      cases t with
      | mk tid tstate =>
        simp only [List.flatten, List.append_nil, List.mem_map]
        constructor
        · rintro ⟨pid, hpid, heq⟩
          cases heq
          exact ⟨hpid, rfl⟩
        · rintro ⟨hmem, hstate⟩
          exact ⟨tid, hmem, by simp [hstate]⟩

/-- Witness for the corrected C1 at a concrete input. -/
theorem arm_transition_writes_ignored_only_witness :
    ([⟨1, 1⟩, ⟨2, 1⟩] : List PE) ≠ [] ∧
    (∃ ws, reconcile_building (.ok [⟨1, 1⟩, ⟨2, 1⟩])
          [(2, ⟨1, false, true⟩)] 1 true (some false) = .ok (true, ws) ∧
        (ws = [] ↔ ignored_ids [(2, ⟨1, false, true⟩)] 1 = []) ∧
        ∀ t : PE, t ∈ ws.flatten ↔
          (t.id ∈ ignored_ids [(2, ⟨1, false, true⟩)] 1 ∧ t.state = 0)) :=
  ⟨by decide,
   arm_transition_writes_ignored_only [⟨1, 1⟩, ⟨2, 1⟩] [(2, ⟨1, false, true⟩)] 1 (by decide)⟩

/-- Claim C2 counterexample: disarm transition (true to false) over
triggers 1..4 with ignore_on_disarm = true exactly on 2 and 3.  The
claim demands that the remaining triggers 1 and 4 be set Reactive, so
the pair (1, Reactive) must be issued; the code writes only the
ignored set to NonReactive and never touches the others. -/
theorem disarm_transition_claim_false :
    reconcile_building (.ok [⟨1, 0⟩, ⟨2, 0⟩, ⟨3, 0⟩, ⟨4, 0⟩])
        [(2, ⟨1, false, true⟩), (3, ⟨1, false, true⟩)] 1 false (some true)
      = .ok (false, [[⟨2, 1⟩, ⟨3, 1⟩]]) ∧
    ¬ (∃ ws, reconcile_building (.ok [⟨1, 0⟩, ⟨2, 0⟩, ⟨3, 0⟩, ⟨4, 0⟩])
          [(2, ⟨1, false, true⟩), (3, ⟨1, false, true⟩)] 1 false (some true)
        = .ok (false, ws) ∧ PE.mk 1 0 ∈ ws.flatten) := by
  refine ⟨by rfl, ?_⟩
  rintro ⟨ws, hws, hmem⟩
  have : ws = [[PE.mk 2 1, PE.mk 3 1]] := by
    have h0 : Except.ok (ε := Unit) (false, ws)
        = .ok (false, [[PE.mk 2 1, PE.mk 3 1]]) := by rw [← hws]; rfl
    simpa using h0
  subst this
  simp at hmem

/-- Claim C2 (corrected): on a disarm transition the Transition
Handler issues one bulk write setting exactly the triggers whose
ignore entry for this building has ignore_on_disarm = true to
NonReactive (state 1); all other triggers of the building are left
untouched (they are not set Reactive), and with no such entry no bulk
write is issued. -/
theorem disarm_transition_writes_ignored_only (pes : List PE)
    (imap : List (Nat × IgnoreEntry)) (bid : Nat) (h : pes ≠ []) :
    ∃ ws, reconcile_building (.ok pes) imap bid false (some true) = .ok (false, ws) ∧
      (ws = [] ↔ ignored_ids imap bid = []) ∧
      ∀ t : PE, t ∈ ws.flatten ↔ (t.id ∈ ignored_ids imap bid ∧ t.state = 1) := by
  by_cases hign : ignored_ids imap bid = []
  · refine ⟨[], ?_, by simp [hign], by simp [hign]⟩
    simp [reconcile_building, h, hign]
  · refine ⟨[(ignored_ids imap bid).map (fun pid => PE.mk pid 1)], ?_, ?_, ?_⟩
    · simp [reconcile_building, h, hign]
    · simp [hign]
    · intro t
      cases t with
      | mk tid tstate =>
        simp only [List.flatten, List.append_nil, List.mem_map]
        constructor
        · rintro ⟨pid, hpid, heq⟩
          cases heq
          exact ⟨hpid, rfl⟩
        · rintro ⟨hmem, hstate⟩
          exact ⟨tid, hmem, by simp [hstate]⟩

/-- Witness for the corrected C2 at a concrete input. -/
theorem disarm_transition_writes_ignored_only_witness :
    ([⟨1, 0⟩, ⟨2, 0⟩] : List PE) ≠ [] ∧
    (∃ ws, reconcile_building (.ok [⟨1, 0⟩, ⟨2, 0⟩])
          [(2, ⟨1, false, true⟩)] 1 false (some true) = .ok (false, ws) ∧
        (ws = [] ↔ ignored_ids [(2, ⟨1, false, true⟩)] 1 = []) ∧
        ∀ t : PE, t ∈ ws.flatten ↔
          (t.id ∈ ignored_ids [(2, ⟨1, false, true⟩)] 1 ∧ t.state = 1)) :=
  ⟨by decide,
   disarm_transition_writes_ignored_only [⟨1, 0⟩, ⟨2, 0⟩] [(2, ⟨1, false, true⟩)] 1 (by decide)⟩

/-- Claim C7 counterexample: the claim states the window-membership
test is the half-open interval, returning false when now equals
end_time; with start 10:00 (36000 s) and end 12:00 (43200 s), at now
exactly 43200 the code returns true. -/
theorem window_membership_claim_false :
    is_time_between (some 36000) (some 43200) 43200 = true := by decide

/-- Claim C7 (corrected): the window-membership test is true exactly
on the CLOSED interval: for start ≤ end when start ≤ now ≤ end (both
endpoints included), and for an overnight window (end < start) when
now ≥ start or now ≤ end; a missing start or end time yields false. -/
theorem window_membership_closed_interval (s e now : Nat) :
    (is_time_between (some s) (some e) now = true ↔
      (s ≤ e ∧ s ≤ now ∧ now ≤ e) ∨ (e < s ∧ (s ≤ now ∨ now ≤ e))) ∧
    is_time_between none (some e) now = false ∧
    is_time_between (some s) none now = false ∧
    is_time_between none none now = false := by
  refine ⟨?_, rfl, rfl, rfl⟩
  by_cases h : s ≤ e
  · simp [is_time_between, h]
  · simp [is_time_between, h]
    omega

/-- Claim C3 (confirmed): for every building and every initial
trigger-state assignment (with at least one trigger, else no snapshot
is captured), running the Window Reconciler step inside the window
with no snapshot captures the initial states as the snapshot, and then
running it outside the window with that snapshot present issues a
write-back of exactly the originally captured (trigger_id,
original_state) pairs and leaves no snapshot behind. -/
theorem window_round_trip_restores_snapshot (ok1 ok2 : Bool)
    (imap : List (Nat × IgnoreEntry)) (bid : Nat) (db : List PE)
    (s e : Option Nat) (now now2 : Nat) (hdb : db ≠ [])
    (h1 : is_time_between s e now = true)
    (h2 : is_time_between s e now2 = false) :
    (evaluate_building_state ok1 imap bid (some (s, e)) now ⟨db, none⟩).1.snap
      = some db ∧
    (evaluate_building_state ok2 imap bid (some (s, e)) now2
        (evaluate_building_state ok1 imap bid (some (s, e)) now ⟨db, none⟩).1).2
      = [db] ∧
    (evaluate_building_state ok2 imap bid (some (s, e)) now2
        (evaluate_building_state ok1 imap bid (some (s, e)) now ⟨db, none⟩).1).1.snap
      = none := by
  have hX : evaluate_building_state ok1 imap bid (some (s, e)) now ⟨db, none⟩
      = ((⟨(set_proevent_reactive_state_bulk ok1 db
              (db.map (fun device =>
                if device.id ∈ ignored_ids imap bid then PE.mk device.id 1
                else PE.mk device.id 0))).1, some db⟩ : WinState),
         [db.map (fun device =>
            if device.id ∈ ignored_ids imap bid then PE.mk device.id 1
            else PE.mk device.id 0)]) := by
    simp [evaluate_building_state, h1, take_snapshot_and_apply_schedule, hdb,
      pe_map_eta]
  rw [hX]
  refine ⟨rfl, ?_, ?_⟩ <;> simp [evaluate_building_state, h2, revert_snapshot]

/-- Witness for C3 at a concrete input: triggers A = (1, Reactive) and
B = (2, NonReactive), window 10:00-12:00, first evaluation at 10:50,
second at 13:20. -/
theorem window_round_trip_restores_snapshot_witness :
    ([⟨1, 0⟩, ⟨2, 1⟩] : List PE) ≠ [] ∧
    is_time_between (some 36000) (some 43200) 39000 = true ∧
    is_time_between (some 36000) (some 43200) 48000 = false ∧
    ((evaluate_building_state true [] 1 (some (some 36000, some 43200)) 39000
        ⟨[⟨1, 0⟩, ⟨2, 1⟩], none⟩).1.snap = some [⟨1, 0⟩, ⟨2, 1⟩] ∧
     (evaluate_building_state true [] 1 (some (some 36000, some 43200)) 48000
        (evaluate_building_state true [] 1 (some (some 36000, some 43200)) 39000
          ⟨[⟨1, 0⟩, ⟨2, 1⟩], none⟩).1).2 = [[⟨1, 0⟩, ⟨2, 1⟩]] ∧
     (evaluate_building_state true [] 1 (some (some 36000, some 43200)) 48000
        (evaluate_building_state true [] 1 (some (some 36000, some 43200)) 39000
          ⟨[⟨1, 0⟩, ⟨2, 1⟩], none⟩).1).1.snap = none) :=
  ⟨by decide, by decide, by decide,
   window_round_trip_restores_snapshot true true [] 1 [⟨1, 0⟩, ⟨2, 1⟩]
     (some 36000) (some 43200) 39000 48000 (by decide) (by decide) (by decide)⟩

/-- Claim C8 counterexample: two buildings, both transitioning from
disarmed to armed; the store read for building 1 raises and building 2
has an ignored trigger that would be written.  The claim says building
2 is still evaluated and its cache entry updated (to true, armed); in
the code the exception aborts the whole function before the cache
write, so building 2 keeps its stale entry false and no write is
issued for it. -/
theorem tick_abort_isolation_claim_false :
    manage_proevents_on_panel_state_change
        (fun b => if b = 1 then .error () else .ok [⟨7, 0⟩])
        [(7, ⟨2, false, true⟩)] [(1, true), (2, true)] [(1, false), (2, false)]
      = ([(1, false), (2, false)], []) ∧
    ¬ (alLookup (manage_proevents_on_panel_state_change
        (fun b => if b = 1 then .error () else .ok [⟨7, 0⟩])
        [(7, ⟨2, false, true⟩)] [(1, true), (2, true)] [(1, false), (2, false)]).1 2
      = some true) := by
  constructor
  · rfl
  · intro h
    rw [show (manage_proevents_on_panel_state_change
        (fun b => if b = 1 then .error () else .ok [⟨7, 0⟩])
        [(7, ⟨2, false, true⟩)] [(1, true), (2, true)] [(1, false), (2, false)]).1
      = [(1, false), (2, false)] from rfl] at h
    simp [alLookup, List.find?] at h

/-- Claim C8 (corrected): a transient store-read failure for a
building in transition aborts the whole tick, not just that building:
the function returns with the cache exactly as it was for every
building (the cache write at the end of the tick is skipped), and the
buildings after the failing one are not evaluated, so no further bulk
write is issued.  Shown here with the failing building first in the
tick: the original cache is returned and zero writes occur. -/
theorem tick_aborts_whole_loop_on_read_failure
    (fetch : Nat → Except Unit (List PE)) (imap : List (Nat × IgnoreEntry))
    (b : Nat) (v pv : Bool) (rest : List (Nat × Bool))
    (cached : List (Nat × Bool)) (hprev : alLookup cached b = some pv)
    (hne : pv ≠ v) (hfail : fetch b = .error ()) :
    manage_proevents_on_panel_state_change fetch imap ((b, v) :: rest) cached
      = (cached, []) := by
  simp [manage_proevents_on_panel_state_change, manageLoop, reconcile_building,
    hprev, hne, hfail]

/-- Witness for the corrected C8 at a concrete input. -/
theorem tick_aborts_whole_loop_on_read_failure_witness :
    alLookup [(1, false), (2, false)] 1 = some false ∧
    (false ≠ true) ∧
    ((fun b => if b = 1 then Except.error (ε := Unit) () else .ok ([⟨7, 0⟩] : List PE)) 1
      = .error ()) ∧
    manage_proevents_on_panel_state_change
        (fun b => if b = 1 then .error () else .ok [⟨7, 0⟩])
        [(7, ⟨2, false, true⟩)] [(1, true), (2, true)] [(1, false), (2, false)]
      = ([(1, false), (2, false)], []) :=
  ⟨by decide, by decide, rfl,
   tick_aborts_whole_loop_on_read_failure
     (fun b => if b = 1 then .error () else .ok [⟨7, 0⟩])
     [(7, ⟨2, false, true⟩)] 1 true false [(2, true)] [(1, false), (2, false)]
     (by decide) (by decide) rfl⟩

/-! ## Lemmas about substring containment and stripping, for C4 -/

theorem leadsWith_iff (n h : List Char) :
    leadsWith n h = true ↔ ∃ s, h = n ++ s := by
  induction n generalizing h with
  | nil => simp [leadsWith]
  | cons c cs ih =>
    cases h with
    | nil => simp [leadsWith]
    | cons d ds =>
      simp only [leadsWith, Bool.and_eq_true, beq_iff_eq, ih, List.cons_append,
        List.cons.injEq]
      constructor
      · rintro ⟨rfl, s, rfl⟩
        exact ⟨s, rfl, rfl⟩
      · rintro ⟨s, rfl, rfl⟩
        exact ⟨rfl, s, rfl⟩

theorem containsSub_iff (n l : List Char) :
    containsSub n l = true ↔ ∃ p s, l = p ++ n ++ s := by
  induction l with
  | nil =>
    simp only [containsSub, leadsWith_iff]
    constructor
    · rintro ⟨s, hs⟩
      exact ⟨[], s, by simp [hs]⟩
    · rintro ⟨p, s, hps⟩
      have h3 : p ++ n ++ s = [] := hps.symm
      rw [List.append_eq_nil] at h3
      obtain ⟨h4, hs0⟩ := h3
      rw [List.append_eq_nil] at h4
      exact ⟨s, by rw [h4.2, List.nil_append, hs0]⟩
  | cons c t ih =>
    simp only [containsSub, Bool.or_eq_true, leadsWith_iff, ih]
    constructor
    · rintro (⟨s, hs⟩ | ⟨p, s, hps⟩)
      · exact ⟨[], s, by simp [hs]⟩
      · exact ⟨c :: p, s, by simp [hps]⟩
    · rintro ⟨p, s, hps⟩
      cases p with
      | nil => exact Or.inl ⟨s, by simpa using hps⟩
      | cons ph pt =>
        right
        have h3 : c = ph ∧ t = pt ++ (n ++ s) := by simpa using hps
        exact ⟨pt, s, by rw [h3.2, List.append_assoc]⟩

theorem containsSub_reverse (n l : List Char) :
    containsSub n.reverse l.reverse = containsSub n l := by
  have key : ∀ a b : List Char, containsSub a b = true →
      containsSub a.reverse b.reverse = true := by
    intro a b hab
    rw [containsSub_iff] at hab ⊢
    obtain ⟨p, s, rfl⟩ := hab
    exact ⟨s.reverse, p.reverse, by simp⟩
  cases h1 : containsSub n l with
  | true => exact key n l h1
  | false =>
    cases h2 : containsSub n.reverse l.reverse with
    | false => rfl
    | true =>
      have h3 := key n.reverse l.reverse h2
      simp only [List.reverse_reverse] at h3
      rw [h1] at h3
      simp at h3

/-- Dropping leading whitespace does not affect containment of an
all-non-whitespace, nonempty needle. -/
theorem containsSub_dropWhile_ws (n : List Char) (hn : n ≠ [])
    (hws : ∀ c ∈ n, c.isWhitespace = false) :
    ∀ l : List Char,
      containsSub n (l.dropWhile Char.isWhitespace) = containsSub n l := by
  intro l
  induction l with
  | nil => rfl
  | cons c t ih =>
    by_cases hc : c.isWhitespace
    · obtain ⟨n0, ns', hcons⟩ := List.exists_cons_of_ne_nil hn
      have hn0 : n0.isWhitespace = false := hws n0 (by rw [hcons]; simp)
      have hne : (n0 == c) = false := by
        simp only [beq_eq_false_iff_ne, ne_eq]
        intro h
        rw [h, hc] at hn0
        simp at hn0
      rw [List.dropWhile_cons]
      simp only [hc, if_true]
      rw [ih]
      subst hcons
      show containsSub (n0 :: ns') t
          = (leadsWith (n0 :: ns') (c :: t) || containsSub (n0 :: ns') t)
      simp [leadsWith, hne]
    · rw [List.dropWhile_cons]
      simp [hc]

/-- Python's strip does not affect containment of the disarmed-state
marker (an all-non-whitespace, nonempty string). -/
theorem containsSub_pyStrip (n : List Char) (hn : n ≠ [])
    (hws : ∀ c ∈ n, c.isWhitespace = false) (l : List Char) :
    containsSub n (pyStrip l) = containsSub n l := by
  have hnr : n.reverse ≠ [] := by simpa using hn
  have hwsr : ∀ c ∈ n.reverse, c.isWhitespace = false := by
    intro c hc
    exact hws c (by simpa using hc)
  have hrev : ∀ x : List Char, containsSub n x.reverse = containsSub n.reverse x := by
    intro x
    simpa using containsSub_reverse n.reverse x
  unfold pyStrip
  rw [hrev, containsSub_dropWhile_ws n.reverse hnr hwsr, ← hrev,
    List.reverse_reverse, containsSub_dropWhile_ws n hn hws]

/-- Claim C4 (confirmed): the Panel State Reader classifies a
building's panel text state as disarmed (is_armed = false) exactly
when the text contains the literal marker AreaArmingStates.2; every
other text value, including empty or null text, classifies as armed
(is_armed = true). -/
theorem classification_disarmed_iff_marker (txt : Option String) :
    (classify_arm_state txt = false ↔
      containsSub disarmMarker (txt.getD "").data = true) ∧
    classify_arm_state none = true ∧ classify_arm_state (some "") = true := by
  refine ⟨?_, by decide, by decide⟩
  have hn : disarmMarker ≠ [] := by decide
  have hws : ∀ c ∈ disarmMarker, c.isWhitespace = false := by decide
  show (!(containsSub disarmMarker (pyStrip (txt.getD "").data))) = false ↔ _
  rw [containsSub_pyStrip disarmMarker hn hws]
  cases h : containsSub disarmMarker (txt.getD "").data <;> simp

end AmazonDVC
